import Mathlib

/-!
Verification of the zlaunch launcher core: item model, fuzzy-filtering
pipeline, sectioned selection/navigation state, and the multi-mode
controller (`src/items/mod.rs`, `src/ui/launcher.rs`).

Pure Rust functions are embedded as Lean functions; the stateful
controller is embedded as explicit record-update state passing.  Parts of
the repository that are referenced from `src/ui/launcher.rs` but whose
source files are not present (the `ItemListDelegate`, `EmojiGridDelegate`
and `ClipboardListDelegate` modules) are modelled from the specification,
as marked in the corresponding doc comments.
-/

/-! ## Item model (`src/items/mod.rs`, payload structs from `src/items/*.rs`) -/

/-- Payload of `ListItem::Application` (fields used by the launcher core). -/
structure ApplicationItem where
  id : String
  name : String
deriving DecidableEq

/-- Payload of `ListItem::Window` (fields used by the launcher core). -/
structure WindowItem where
  id : String
  title : String
  address : String
deriving DecidableEq

/-- Payload of `ListItem::Action` (fields used by the launcher core). -/
structure ActionItem where
  id : String
  name : String
deriving DecidableEq

/-- Payload of `ListItem::Submenu` (fields used by the launcher core). -/
structure SubmenuItem where
  id : String
  name : String
deriving DecidableEq

/-- Payload of `ListItem::Calculator` (fields used by the launcher core). -/
structure CalculatorItem where
  id : String
  expression : String
  display_result : String
deriving DecidableEq

/-- Payload of `ListItem::Search` (`src/items/search.rs`). -/
structure SearchItem where
  id : String
  name : String
  url : String
deriving DecidableEq

/-- `ListItem` from `src/items/mod.rs`: a closed set of item variants. -/
inductive ListItem where
  | Application : ApplicationItem → ListItem
  | Window : WindowItem → ListItem
  | Action : ActionItem → ListItem
  | Submenu : SubmenuItem → ListItem
  | Calculator : CalculatorItem → ListItem
  | Search : SearchItem → ListItem
deriving DecidableEq

namespace ListItem

/-- `ListItem::id` from `src/items/mod.rs`. -/
def id : ListItem → String
  | .Application app => app.id
  | .Window win => win.id
  | .Action act => act.id
  | .Submenu sub => sub.id
  | .Calculator c => c.id
  | .Search search => search.id

/-- `ListItem::name` from `src/items/mod.rs`. -/
def name : ListItem → String
  | .Application app => app.name
  | .Window win => win.title
  | .Action act => act.name
  | .Submenu sub => sub.name
  | .Calculator c => c.expression
  | .Search search => search.name

/-- `ListItem::is_submenu` from `src/items/mod.rs`. -/
def is_submenu : ListItem → Bool
  | .Submenu _ => true
  | _ => false

/-- `ListItem::is_application` from `src/items/mod.rs`. -/
def is_application : ListItem → Bool
  | .Application _ => true
  | _ => false

/-- `ListItem::is_window` from `src/items/mod.rs`. -/
def is_window : ListItem → Bool
  | .Window _ => true
  | _ => false

/-- `ListItem::is_action` from `src/items/mod.rs`. -/
def is_action : ListItem → Bool
  | .Action _ => true
  | _ => false

/-- `ListItem::is_calculator` from `src/items/mod.rs`. -/
def is_calculator : ListItem → Bool
  | .Calculator _ => true
  | _ => false

/-- `ListItem::sort_priority` from `src/items/mod.rs` (a `u8`; the values
are 0..4 so no wrap-around arithmetic occurs). -/
def sort_priority : ListItem → Nat
  | .Calculator _ => 0
  | .Search _ => 1
  | .Window _ => 2
  | .Submenu _ => 3
  | .Action _ => 3
  | .Application _ => 4

/-- `ListItem::section_name` from `src/items/mod.rs`. -/
def section_name : ListItem → String
  | .Calculator _ => "Calculator"
  | .Search _ => "Search"
  | .Window _ => "Windows"
  | .Submenu _ => "Commands"
  | .Action _ => "Commands"
  | .Application _ => "Applications"

/-- `ListItem::action_label` from `src/items/mod.rs`. -/
def action_label : ListItem → String
  | .Application _ => "Open"
  | .Window _ => "Switch"
  | .Action _ => "Run"
  | .Submenu _ => "Open"
  | .Calculator _ => "Copy"
  | .Search _ => "Open"

end ListItem

/-! ## Fuzzy filter engine

Modelled from the spec: `ItemListDelegate::filter_items_sync`
(`src/ui/items/mod.rs` is not among the provided sources; only its caller
`LauncherView::async_search` is).  Spec §4.2: empty query returns all
indices in original order with a fixed equal score; a non-empty query
computes a case-insensitive subsequence match of the query against each
item's display name, excludes non-matching items, and orders the rest by
ascending section priority, then descending score, then ascending
original index. -/

/-- Case-sensitive subsequence test on character lists (helper for the
case-insensitive match, which lower-cases both sides first). -/
def isCharSubsequence : List Char → List Char → Bool
  | [], _ => true
  | _ :: _, [] => false
  | a :: as, b :: bs =>
    if a = b then isCharSubsequence as bs else isCharSubsequence (a :: as) bs

/-- Modelled from the spec: the per-item fuzzy score.  `none` means the
item is excluded; an empty query matches every item with a fixed equal
score.  The exact numeric score of a non-empty match is unspecified in the
spec; the query length is used here. -/
def fuzzy_score (query nm : String) : Option Nat :=
  if query.isEmpty then some 0
  else if isCharSubsequence query.toLower.toList nm.toLower.toList then
    some query.length
  else none

/-- Sort priority of the item at backing index `i` (out-of-range indices
never occur in a filtered view; they default to 0). -/
def prioAt (items : List ListItem) (i : Nat) : Nat :=
  ((items.get? i).map ListItem.sort_priority).getD 0

/-- Section name of the item at backing index `i`. -/
def sectionAt (items : List ListItem) (i : Nat) : String :=
  ((items.get? i).map ListItem.section_name).getD ""

/-- The ranking order of spec §4.2 on `(original_index, score)` pairs:
ascending section priority, then descending score, then ascending
original index. -/
def rankRel (items : List ListItem) (a b : Nat × Nat) : Prop :=
  prioAt items a.1 < prioAt items b.1 ∨
    (prioAt items a.1 = prioAt items b.1 ∧
      (b.2 < a.2 ∨ (a.2 = b.2 ∧ a.1 ≤ b.1)))

instance rankRel.decidableRel (items : List ListItem) :
    DecidableRel (rankRel items) := fun a b => by
  unfold rankRel; infer_instance

instance rankRel.isTotal (items : List ListItem) :
    IsTotal (Nat × Nat) (rankRel items) := by
  constructor
  intro a b
  unfold rankRel
  omega

instance rankRel.isTrans (items : List ListItem) :
    IsTrans (Nat × Nat) (rankRel items) := by
  constructor
  intro a b c hab hbc
  unfold rankRel at hab hbc ⊢
  omega

/-- Modelled from the spec: `ItemListDelegate::filter_items_sync`.  Pure
function from an item snapshot and a query to the ranked list of backing
indices (spec §4.2). -/
def filter_items_sync (items : List ListItem) (query : String) : List Nat :=
  let scored := (List.range items.length).filterMap fun i =>
    (items.get? i).bind fun it => (fuzzy_score query it.name).map fun s => (i, s)
  (List.insertionSort (rankRel items) scored).map Prod.fst

/-! ## Sections of a filtered view

Spec §3: the filtered view is an ordered sequence of backing indices
partitioned into sections; section boundaries are recomputed whenever the
view changes.  Sections are the maximal consecutive runs of the filtered
sequence whose items share a section name. -/

/-- Maximal consecutive runs of equal `key` values. -/
def groupRuns (key : Nat → String) : List Nat → List (List Nat)
  | [] => []
  | [i] => [[i]]
  | i :: j :: rest =>
    match groupRuns key (j :: rest) with
    | [] => [[i]]
    | run :: runs =>
      if key j = key i then (i :: run) :: runs else [i] :: run :: runs

/-- The section segments of a filtered view. -/
def sections (items : List ListItem) (filtered : List Nat) : List (List Nat) :=
  groupRuns (sectionAt items) filtered

/-- The section lengths (row counts) of a filtered view. -/
def sectionLengths (items : List ListItem) (filtered : List Nat) : List Nat :=
  (sections items filtered).map List.length

/-! ## Sectioned list controller state

Modelled from the spec: `ItemListDelegate` (`src/ui/items/mod.rs` is not
among the provided sources).  Spec §4.3 fixes its state: backing items,
current query, filtered view, selection cursor, and a pending-filter
generation counter. -/

/-- Modelled from the spec: the sectioned list controller state of §4.3. -/
structure ItemListDelegate where
  items : List ListItem
  query : String
  generation : Nat
  filtered : List Nat
  selected : Option Nat
deriving DecidableEq

/-- A filter request handed to the background worker: an immutable item
snapshot, the query, and the generation stamped at request time (spec
§4.3 `request_filter`, §9 design note on message passing). -/
structure PendingRequest where
  items : List ListItem
  query : String
  generation : Nat
deriving DecidableEq

/-- A background-worker response: the query, its generation, and the
ranked index list. -/
structure FilterResult where
  query : String
  generation : Nat
  ranked : List Nat
deriving DecidableEq

namespace ItemListDelegate

/-- `filtered_count` accessor (spec §6). -/
def filtered_count (d : ItemListDelegate) : Nat :=
  d.filtered.length

/-- `selected_index` accessor: the selection cursor into the filtered
view. -/
def selected_index (d : ItemListDelegate) : Option Nat :=
  d.selected

/-- `set_selected`: moves the cursor. -/
def set_selected (d : ItemListDelegate) (i : Nat) : ItemListDelegate :=
  { d with selected := some i }

/-- `selected_item`: the item at the cursor, read through the filtered
view into the backing collection (spec §4.3 `confirm`, §6 read-only
selected-item accessor). -/
def selected_item (d : ItemListDelegate) : Option ListItem :=
  d.selected.bind fun c => (d.filtered.get? c).bind fun i => d.items.get? i

/-- Modelled from the spec: `set_query_only` records the query
immediately without recomputing the filtered view (spec §4.3
`set_query`); called by `LauncherView::async_search`. -/
def set_query_only (d : ItemListDelegate) (q : String) : ItemListDelegate :=
  { d with query := q }

/-- Modelled from the spec: `request_filter` increments the generation
counter and hands `(items, q, generation)` to the background worker
(spec §4.3). -/
def request_filter (d : ItemListDelegate) (q : String) :
    ItemListDelegate × PendingRequest :=
  ({ d with generation := d.generation + 1 },
   { items := d.items, query := q, generation := d.generation + 1 })

/-- Modelled from the spec: `apply_filter_results` is a no-op if the
result's generation is stale; otherwise it rebuilds the filtered view
from the ranked indices and resets the cursor to index 0 if non-empty,
else `None` (spec §4.3).  Section boundaries are derived data
(`sectionLengths`) and need no separate update. -/
def apply_filter_results (d : ItemListDelegate) (res : FilterResult) :
    ItemListDelegate :=
  if res.generation = d.generation then
    { d with
      filtered := res.ranked,
      selected := if res.ranked.isEmpty then none else some 0 }
  else d

/-- Modelled from the spec: `clear_query` resets the controller's
transient query and filtered view (spec §4.5: on exit from a sub-mode the
Main controller's transient filtered view/query is reset). -/
def clear_query (d : ItemListDelegate) : ItemListDelegate :=
  let ranked := filter_items_sync d.items ""
  { d with
    query := "",
    filtered := ranked,
    selected := if ranked.isEmpty then none else some 0 }

/-- Modelled from the spec: `global_to_section_row` on a list of section
lengths walks the sections in order of first appearance (spec §4.3). -/
def g2sAux : List Nat → Nat → Nat × Nat
  | [], i => (0, i)
  | n :: rest, i =>
    if i < n then (0, i)
    else
      let p := g2sAux rest (i - n)
      (p.1 + 1, p.2)

/-- Modelled from the spec: `section_row_to_global` on a list of section
lengths: the flat index is the row plus the lengths of all earlier
sections (spec §4.3). -/
def s2gAux : List Nat → Nat → Nat → Nat
  | [], _, r => r
  | _ :: _, 0, r => r
  | n :: rest, Nat.succ s, r => n + s2gAux rest s r

/-- `global_to_section_row(i)`: flat filtered index to (section ordinal,
row within section). -/
def global_to_section_row (d : ItemListDelegate) (i : Nat) : Nat × Nat :=
  g2sAux (sectionLengths d.items d.filtered) i

/-- `section_row_to_global(s, r)`: (section ordinal, row) to flat
filtered index. -/
def section_row_to_global (d : ItemListDelegate) (s r : Nat) : Nat :=
  s2gAux (sectionLengths d.items d.filtered) s r

end ItemListDelegate

/-! ## The background search round trip (`LauncherView::async_search`) -/

/-- Runs one unit of background work (the body of the
`background.spawn` closure in `LauncherView::async_search`): the worker
computes `filter_items_sync` on the snapshot and returns it with the
request's query and generation, mutating nothing (spec §5). -/
def run_request (r : PendingRequest) : FilterResult :=
  { query := r.query
    generation := r.generation
    ranked := filter_items_sync r.items r.query }

/-- `LauncherView::async_search`: records the query immediately via
`set_query_only`, then dispatches a background filter request over the
current item snapshot.  Returns the updated controller and the pending
request whose result will later be fed to `apply_filter_results`. -/
def async_search (d : ItemListDelegate) (q : String) :
    ItemListDelegate × PendingRequest :=
  (d.set_query_only q).request_filter q

/-- The out-of-order completion scenario: queries `q1` then `q2` are
issued, `q2`'s result is applied first, and `q1`'s (stale) result arrives
last and is applied afterwards. -/
def race_apply_stale_last (d : ItemListDelegate) (q1 q2 : String) :
    ItemListDelegate :=
  (((async_search (async_search d q1).1 q2).1.apply_filter_results
      (run_request (async_search (async_search d q1).1 q2).2)).apply_filter_results
    (run_request (async_search d q1).2))

/-- The reference outcome: only `q2`'s result is ever applied. -/
def apply_latest_only (d : ItemListDelegate) (q1 q2 : String) :
    ItemListDelegate :=
  ((async_search (async_search d q1).1 q2).1.apply_filter_results
    (run_request (async_search (async_search d q1).1 q2).2))

/-! ## Selection navigation (`LauncherView::select_next` / `select_prev`,
Main-mode branches, `src/ui/launcher.rs`) -/

/-- The Main-mode branch of `LauncherView::select_next`: no-op on an
empty filtered view; otherwise advance the cursor by one with wrap-around
past the last item. -/
def select_next (d : ItemListDelegate) : ItemListDelegate :=
  let count := d.filtered_count
  if count = 0 then d
  else
    let current := d.selected_index.getD 0
    let next := if current + 1 ≥ count then 0 else current + 1
    d.set_selected next

/-- The Main-mode branch of `LauncherView::select_prev`: no-op on an
empty filtered view; otherwise move the cursor back by one with
wrap-around before the first item. -/
def select_prev (d : ItemListDelegate) : ItemListDelegate :=
  let count := d.filtered_count
  if count = 0 then d
  else
    let current := d.selected_index.getD 0
    let prev := if current = 0 then count - 1 else current - 1
    d.set_selected prev

/-! ## Confirm side effects and host signals (`src/ui/launcher.rs`)

The `on_confirm` closure installed in `LauncherView::new` dispatches a
variant-specific external side effect and then invokes the host's hide
callback.  External collaborators (launching, window focus, clipboard,
URL opening, spec §6) are embedded as an abstract effect vocabulary plus
an environment `fail : Effect → Bool` saying which external calls fail;
the closure's observable behaviour is the list of emitted events. -/

/-- The external side effects the launcher core can dispatch (spec §6). -/
inductive Effect where
  | launchApp : String → Effect
  | focusWindow : String → Effect
  | copyClipboard : String → Effect
  | executeAction : String → Effect
  | openUrl : String → Effect
  | setClipboardImage : List Nat → Effect
deriving DecidableEq

/-- Observable events at the host boundary: an effect dispatch, a
warning-level diagnostic, or the hide signal. -/
inductive Event where
  | dispatched : Effect → Event
  | warned : Event
  | hid : Event
deriving DecidableEq

/-- `CalculatorItem::text_for_clipboard` (its defining file is not among
the provided sources; modelled from the spec's Calculator→copy-text-to-
clipboard interface as the displayed result text). -/
def CalculatorItem.text_for_clipboard (c : CalculatorItem) : String :=
  c.display_result

/-- The `on_confirm` closure from `LauncherView::new`
(`src/ui/launcher.rs` lines 88-135): dispatches the variant-specific
effect, logs a warning if it failed (except for `Application`, whose
launch result is discarded with `let _ =`), and always calls the hide
callback last.  `Submenu` matches the `_ => {}` arm: no effect, just
hide. -/
def on_confirm (fail : Effect → Bool) : ListItem → List Event
  | .Application app =>
    [Event.dispatched (Effect.launchApp app.id), Event.hid]
  | .Window win =>
    Event.dispatched (Effect.focusWindow win.address) ::
      (if fail (Effect.focusWindow win.address) then [Event.warned, Event.hid]
       else [Event.hid])
  | .Calculator c =>
    Event.dispatched (Effect.copyClipboard c.text_for_clipboard) ::
      (if fail (Effect.copyClipboard c.text_for_clipboard) then
        [Event.warned, Event.hid]
       else [Event.hid])
  | .Action act =>
    Event.dispatched (Effect.executeAction act.id) ::
      (if fail (Effect.executeAction act.id) then [Event.warned, Event.hid]
       else [Event.hid])
  | .Search search =>
    Event.dispatched (Effect.openUrl search.url) ::
      (if fail (Effect.openUrl search.url) then [Event.warned, Event.hid]
       else [Event.hid])
  | .Submenu _ => [Event.hid]

/-- The variant-specific external side effect of confirming an item
(spec §6); `none` for submenus, whose confirm is a mode transition. -/
def confirm_effect : ListItem → Option Effect
  | .Application app => some (Effect.launchApp app.id)
  | .Window win => some (Effect.focusWindow win.address)
  | .Calculator c => some (Effect.copyClipboard c.text_for_clipboard)
  | .Action act => some (Effect.executeAction act.id)
  | .Search search => some (Effect.openUrl search.url)
  | .Submenu _ => none

/-- Whether a failed dispatch of this item's effect is reported as a
warning by the `on_confirm` closure (all fallible arms log a warning
except `Application`, whose launch result is discarded). -/
def warns_on_fail : ListItem → Bool
  | .Application _ => false
  | .Submenu _ => false
  | _ => true

/-- Modelled from the spec: `ItemListDelegate::do_confirm` looks up the
item at the cursor and invokes the registered `on_confirm` callback with
it; with no cursor (empty filtered view) confirm is a no-op (spec §4.3,
§7(b)). -/
def ItemListDelegate.do_confirm (fail : Effect → Bool)
    (d : ItemListDelegate) : List Event :=
  match d.selected_item with
  | some it => on_confirm fail it
  | none => []

/-- The `on_select` closure installed on the emoji grid delegate in
`LauncherView::enter_emoji_mode` (lines 200-205): copy the emoji to the
clipboard, warn on failure, then hide. -/
def emoji_on_select (fail : Effect → Bool) (emoji : String) : List Event :=
  Event.dispatched (Effect.copyClipboard emoji) ::
    (if fail (Effect.copyClipboard emoji) then [Event.warned, Event.hid]
     else [Event.hid])

/-! ## Mode controller (`LauncherView`, `src/ui/launcher.rs`) -/

/-- `ViewMode` from `src/ui/launcher.rs`. -/
inductive ViewMode where
  | Main
  | EmojiPicker
  | ClipboardHistory
deriving DecidableEq

/-- Clipboard content variants (`ClipboardContent`; its defining file is
not among the provided sources — the variants and the fields used are
read off its uses in `src/ui/launcher.rs` and
`src/ui/clipboard/mod.rs`).  Paths are embedded as strings and image
payloads as byte lists. -/
inductive ClipboardContent where
  | Text : String → ClipboardContent
  | FilePaths : List String → ClipboardContent
  | RichText : String → ClipboardContent
  | Image : List Nat → ClipboardContent
deriving DecidableEq

/-- A clipboard history entry (only the `content` field is consumed by
the launcher core). -/
structure ClipboardItem where
  content : ClipboardContent
deriving DecidableEq

/-- The `on_select` closure installed on the clipboard delegate in
`LauncherView::enter_clipboard_mode` (lines 256-299): copy the selected
entry back to the clipboard (text, joined file paths, the plain part of
rich text, or image data), warn if that failed, then hide. -/
def clip_on_select (fail : Effect → Bool) (item : ClipboardItem) :
    List Event :=
  let eff := match item.content with
    | .Text text => Effect.copyClipboard text
    | .FilePaths paths => Effect.copyClipboard (String.intercalate "\n" paths)
    | .RichText plain => Effect.copyClipboard plain
    | .Image bytes => Effect.setClipboardImage bytes
  Event.dispatched eff ::
    (if fail eff then [Event.warned, Event.hid] else [Event.hid])

/-- Modelled from the spec: `EmojiGridDelegate` (`src/ui/emoji.rs` is not
among the provided sources).  Only the shared query contract of §4.4 and
the cursor lookup feeding `on_select` are needed here: the query, and the
emoji the cursor currently rests on (`none` for an empty view). -/
structure EmojiGridDelegate where
  query : String
  selected_emoji : Option String
deriving DecidableEq

/-- Modelled from the spec: `EmojiGridDelegate::new` constructs a fresh
grid controller with an empty query. -/
def EmojiGridDelegate.new : EmojiGridDelegate :=
  { query := "", selected_emoji := none }

/-- Modelled from the spec: `ClipboardListDelegate`
(`src/ui/clipboard/delegate.rs` is not among the provided sources): the
query and the entry the cursor currently rests on. -/
structure ClipboardListDelegate where
  query : String
  selected : Option ClipboardItem
deriving DecidableEq

/-- Modelled from the spec: `ClipboardListDelegate::new` constructs a
fresh clipboard controller with an empty query. -/
def ClipboardListDelegate.new : ClipboardListDelegate :=
  { query := "", selected := none }

/-- The search input widget state: its text value and placeholder. -/
structure InputState where
  value : String
  placeholder : String
deriving DecidableEq

/-- `LauncherView` from `src/ui/launcher.rs`: the mode controller state.
`list_state` is the Main sectioned list controller (never destroyed);
the emoji and clipboard controllers exist only while their mode is
active. -/
structure LauncherView where
  view_mode : ViewMode
  list_state : ItemListDelegate
  emoji_list_state : Option EmojiGridDelegate
  clipboard_list_state : Option ClipboardListDelegate
  input_state : InputState
deriving DecidableEq

namespace LauncherView

/-- `LauncherView::enter_emoji_mode`: clear the input, swap the
placeholder, construct a fresh emoji grid delegate, switch the mode. -/
def enter_emoji_mode (v : LauncherView) : LauncherView :=
  { v with
    input_state := { value := "", placeholder := "Search emojis..." },
    emoji_list_state := some EmojiGridDelegate.new,
    view_mode := ViewMode.EmojiPicker }

/-- `LauncherView::exit_emoji_mode`: back to Main, drop the emoji grid
delegate, clear the input, restore the placeholder, reset the Main
list's query. -/
def exit_emoji_mode (v : LauncherView) : LauncherView :=
  { v with
    view_mode := ViewMode.Main,
    emoji_list_state := none,
    input_state := { value := "", placeholder := "Search applications..." },
    list_state := v.list_state.clear_query }

/-- `LauncherView::enter_clipboard_mode`: clear the input, swap the
placeholder, construct a fresh clipboard delegate, switch the mode. -/
def enter_clipboard_mode (v : LauncherView) : LauncherView :=
  { v with
    input_state := { value := "", placeholder := "Search clipboard history..." },
    clipboard_list_state := some ClipboardListDelegate.new,
    view_mode := ViewMode.ClipboardHistory }

/-- `LauncherView::exit_clipboard_mode`: back to Main, drop the
clipboard delegate, clear the input, restore the placeholder, reset the
Main list's query. -/
def exit_clipboard_mode (v : LauncherView) : LauncherView :=
  { v with
    view_mode := ViewMode.Main,
    clipboard_list_state := none,
    input_state := { value := "", placeholder := "Search applications..." },
    list_state := v.list_state.clear_query }

/-- `LauncherView::go_back`: in a sub-mode, exit it only when the input
is empty; in Main mode, do nothing. -/
def go_back (v : LauncherView) : LauncherView :=
  match v.view_mode with
  | ViewMode.EmojiPicker =>
    if v.input_state.value.isEmpty then v.exit_emoji_mode else v
  | ViewMode.ClipboardHistory =>
    if v.input_state.value.isEmpty then v.exit_clipboard_mode else v
  | ViewMode.Main => v

/-- `LauncherView::confirm`: in Main mode, a selected submenu with id
`"submenu-emojis"` or `"submenu-clipboard"` triggers its mode transition
(and emits nothing); any other selection falls through to the delegate's
`do_confirm`.  In a sub-mode, confirm routes to that mode's delegate,
whose `on_select` closure runs on the item at its cursor. -/
def confirm (fail : Effect → Bool) (v : LauncherView) :
    LauncherView × List Event :=
  match v.view_mode with
  | ViewMode.Main =>
    match v.list_state.selected_item with
    | some (ListItem.Submenu sub) =>
      if sub.id = "submenu-emojis" then (v.enter_emoji_mode, [])
      else if sub.id = "submenu-clipboard" then (v.enter_clipboard_mode, [])
      else (v, v.list_state.do_confirm fail)
    | _ => (v, v.list_state.do_confirm fail)
  | ViewMode.EmojiPicker =>
    match v.emoji_list_state with
    | some g =>
      (v, match g.selected_emoji with
          | some e => emoji_on_select fail e
          | none => [])
    | none => (v, [])
  | ViewMode.ClipboardHistory =>
    match v.clipboard_list_state with
    | some c =>
      (v, match c.selected with
          | some it => clip_on_select fail it
          | none => [])
    | none => (v, [])

/-- `LauncherView::cancel`: in Main mode invoke the delegate's cancel
callback (the `on_cancel` closure from `LauncherView::new` just hides);
in a sub-mode, exit back to Main. -/
def cancel (v : LauncherView) : LauncherView × List Event :=
  match v.view_mode with
  | ViewMode.Main => (v, [Event.hid])
  | ViewMode.EmojiPicker => (v.exit_emoji_mode, [])
  | ViewMode.ClipboardHistory => (v.exit_clipboard_mode, [])

end LauncherView

/-! ## Concrete fixtures (used by witness theorems) -/

/-- A small mixed backing collection: two applications and a window. -/
def wItems : List ListItem :=
  [ ListItem.Application { id := "app-firefox", name := "Firefox" },
    ListItem.Application { id := "app-files", name := "Files" },
    ListItem.Window { id := "win-term", title := "Terminal", address := "0x2A" } ]

/-- A Main-list controller over `wItems` with the empty-query view
`[2, 0, 1]` (sections `[1, 2]`: Windows then Applications) and the
cursor on the first row. -/
def wDel : ItemListDelegate :=
  { items := wItems
    query := ""
    generation := 0
    filtered := filter_items_sync wItems ""
    selected := some 0 }

/-- The same controller with the cursor on the last row. -/
def wDelLast : ItemListDelegate :=
  { wDel with selected := some 2 }

/-- A controller over an empty backing collection (empty filtered
view, no cursor). -/
def wDelEmpty : ItemListDelegate :=
  { items := [], query := "", generation := 0, filtered := [], selected := none }

/-- A backing collection containing the two special submenus, one
unrecognised submenu, and a window. -/
def wSubItems : List ListItem :=
  [ ListItem.Submenu { id := "submenu-emojis", name := "Emojis" },
    ListItem.Submenu { id := "submenu-clipboard", name := "Clipboard" },
    ListItem.Submenu { id := "submenu-settings", name := "Settings" },
    ListItem.Window { id := "win-term", title := "Terminal", address := "0x2A" } ]

/-- A launcher in Main mode over `wSubItems` with the full view and the
cursor on row `c`. -/
def wView (c : Nat) : LauncherView :=
  { view_mode := ViewMode.Main
    list_state :=
      { items := wSubItems
        query := ""
        generation := 0
        filtered := [0, 1, 2, 3]
        selected := some c }
    emoji_list_state := none
    clipboard_list_state := none
    input_state := { value := "", placeholder := "Search applications..." } }

/-- A launcher sitting in emoji-picker mode with input text `q`. -/
def wViewEmoji (q : String) : LauncherView :=
  { view_mode := ViewMode.EmojiPicker
    list_state := (wView 0).list_state
    emoji_list_state := some { query := q, selected_emoji := none }
    clipboard_list_state := none
    input_state := { value := q, placeholder := "Search emojis..." } }

/-- A launcher sitting in clipboard-history mode with input text `q`. -/
def wViewClip (q : String) : LauncherView :=
  { view_mode := ViewMode.ClipboardHistory
    list_state := (wView 0).list_state
    emoji_list_state := none
    clipboard_list_state := some { query := q, selected := none }
    input_state := { value := q, placeholder := "Search clipboard history..." } }

/-! ## General list helpers -/

theorem filterMap_eq_map_of {α β : Type} (l : List α) (f : α → Option β)
    (g : α → β) (h : ∀ a ∈ l, f a = some (g a)) : l.filterMap f = l.map g := by
  induction l with
  | nil => rfl
  | cons a l ih =>
    rw [List.filterMap_cons, h a (by simp), List.map_cons,
      ih fun x hx => h x (by simp [hx])]

theorem pairwise_mono_mem {α : Type} {R S : α → α → Prop} {l : List α}
    (h : ∀ a ∈ l, ∀ b ∈ l, R a b → S a b) (hp : l.Pairwise R) :
    l.Pairwise S := by
  induction hp with
  | nil => exact List.Pairwise.nil
  | @cons a l hhead _htail ih =>
    constructor
    · exact fun b hb => h a (by simp) b (by simp [hb]) (hhead b hb)
    · exact ih fun x hx y hy hr => h x (by simp [hx]) y (by simp [hy]) hr

theorem pairwise_and_both {α : Type} {R S : α → α → Prop} {l : List α}
    (h1 : l.Pairwise R) (h2 : l.Pairwise S) :
    l.Pairwise fun a b => R a b ∧ S a b := by
  induction l with
  | nil => exact List.Pairwise.nil
  | cons a l ih =>
    obtain ⟨ha1, h1t⟩ := List.pairwise_cons.1 h1
    obtain ⟨ha2, h2t⟩ := List.pairwise_cons.1 h2
    exact List.pairwise_cons.2 ⟨fun b hb => ⟨ha1 b hb, ha2 b hb⟩, ih h1t h2t⟩

/-! ## Section-partition lemmas -/

theorem groupRuns_join (key : Nat → String) :
    ∀ l : List Nat, (groupRuns key l).flatten = l
  | [] => rfl
  | [_] => rfl
  | i :: j :: rest => by
    have ih := groupRuns_join key (j :: rest)
    unfold groupRuns
    cases hg : groupRuns key (j :: rest) with
    | nil => rw [hg] at ih; simp at ih
    | cons run runs =>
      rw [hg] at ih
      simp only [List.flatten_cons] at ih
      by_cases hk : key j = key i
      · simp [hk, List.flatten_cons, ih]
      · simp [hk, List.flatten_cons, ih]

theorem groupRuns_ne_nil (key : Nat → String) :
    ∀ l : List Nat, ∀ run ∈ groupRuns key l, run ≠ []
  | [], _, h => by simp [groupRuns] at h
  | [i], run, h => by
    simp [groupRuns] at h
    simp [h]
  | i :: j :: rest, run, h => by
    have ih := groupRuns_ne_nil key (j :: rest)
    unfold groupRuns at h
    cases hg : groupRuns key (j :: rest) with
    | nil => rw [hg] at h; simp at h; simp [h]
    | cons r rs =>
      rw [hg] at h
      by_cases hk : key j = key i
      · rcases (by simpa [hk] using h : run = i :: r ∨ run ∈ rs) with h1 | h1
        · simp [h1]
        · exact ih run (by rw [hg]; exact List.mem_cons_of_mem _ h1)
      · rcases (by simpa [hk] using h : run = [i] ∨ run = r ∨ run ∈ rs) with h1 | h1 | h1
        · simp [h1]
        · exact ih run (by rw [hg]; simp [h1])
        · exact ih run (by rw [hg]; exact List.mem_cons_of_mem _ h1)

theorem sections_join (items : List ListItem) (filtered : List Nat) :
    (sections items filtered).flatten = filtered :=
  groupRuns_join (sectionAt items) filtered

theorem sectionLengths_sum (items : List ListItem) (filtered : List Nat) :
    (sectionLengths items filtered).sum = filtered.length := by
  have h := sections_join items filtered
  calc (sectionLengths items filtered).sum
      = (sections items filtered).flatten.length := (List.length_flatten _).symm
    _ = filtered.length := by rw [h]

/-! ## Round-trip lemmas for the global ↔ (section, row) mapping -/

theorem s2g_g2s (lens : List Nat) (i : Nat) (h : i < lens.sum) :
    ItemListDelegate.s2gAux lens (ItemListDelegate.g2sAux lens i).1
      (ItemListDelegate.g2sAux lens i).2 = i := by
  induction lens generalizing i with
  | nil => simp at h
  | cons n rest ih =>
    unfold ItemListDelegate.g2sAux
    by_cases hin : i < n
    · simp only [if_pos hin]
      rfl
    · simp only [if_neg hin]
      have hrest : i - n < rest.sum := by
        simp only [List.sum_cons] at h
        omega
      have := ih (i - n) hrest
      simp only [ItemListDelegate.s2gAux]
      omega

theorem g2s_s2g (lens : List Nat) (s r : Nat) (hs : s < lens.length)
    (hr : r < lens.getD s 0) :
    ItemListDelegate.g2sAux lens (ItemListDelegate.s2gAux lens s r) = (s, r) := by
  induction lens generalizing s with
  | nil => simp at hs
  | cons n rest ih =>
    cases s with
    | zero =>
      have hrn : r < n := by simpa using hr
      simp [ItemListDelegate.s2gAux, ItemListDelegate.g2sAux, hrn]
    | succ s1 =>
      have hs1 : s1 < rest.length := by simpa using hs
      have hr1 : r < rest.getD s1 0 := by simpa using hr
      have ihr := ih s1 hs1 hr1
      simp only [ItemListDelegate.s2gAux, ItemListDelegate.g2sAux]
      have hnot : ¬ n + ItemListDelegate.s2gAux rest s1 r < n := by omega
      simp only [if_neg hnot]
      have harg : n + ItemListDelegate.s2gAux rest s1 r - n
          = ItemListDelegate.s2gAux rest s1 r := by omega
      rw [harg, ihr]

/-! ## Navigation step lemmas -/

theorem select_next_selected (d : ItemListDelegate) (c : Nat)
    (h : d.selected = some c) (hc : c < d.filtered_count) :
    (select_next d).selected = some ((c + 1) % d.filtered_count) ∧
    (select_next d).filtered = d.filtered := by
  unfold select_next
  have h0 : ¬ d.filtered_count = 0 := by omega
  simp only [ItemListDelegate.selected_index, h, Option.getD_some, if_neg h0,
    ItemListDelegate.set_selected]
  refine ⟨?_, trivial⟩
  by_cases hge : c + 1 ≥ d.filtered_count
  · have heq : c + 1 = d.filtered_count := by omega
    simp [hge, heq, Nat.mod_self]
  · simp [hge, Nat.mod_eq_of_lt (by omega : c + 1 < d.filtered_count)]

theorem select_next_iterate (d : ItemListDelegate) (k c : Nat)
    (h : d.selected = some c) (hc : c < d.filtered_count) :
    (select_next^[k] d).selected = some ((c + k) % d.filtered_count) ∧
    (select_next^[k] d).filtered = d.filtered := by
  induction k generalizing d c with
  | zero => simp [h, Nat.mod_eq_of_lt hc]
  | succ k ih =>
    rw [Function.iterate_succ_apply]
    obtain ⟨h1, h2⟩ := select_next_selected d c h hc
    have hcount : (select_next d).filtered_count = d.filtered_count := by
      simp [ItemListDelegate.filtered_count, h2]
    have hlt : (c + 1) % d.filtered_count < d.filtered_count :=
      Nat.mod_lt _ (by omega)
    obtain ⟨i1, i2⟩ := ih (select_next d) ((c + 1) % d.filtered_count)
      (by rw [h1]) (by rw [hcount]; exact hlt)
    refine ⟨?_, by rw [i2, h2]⟩
    rw [i1, hcount, Nat.mod_add_mod]
    have harg : c + 1 + k = c + (k + 1) := by omega
    rw [harg]

/-! ## Claim theorems -/

/-- C1: if query `q1` is issued and then query `q2`, and `q1`'s
background filter result is delivered after `q2`'s, applying the results
leaves the filtered view and the cursor reflecting `q2` only — the stale
`q1` result is discarded as a no-op by the generation check. -/
theorem stale_result_discarded (d : ItemListDelegate) (q1 q2 : String) :
    race_apply_stale_last d q1 q2 = apply_latest_only d q1 q2 ∧
    (apply_latest_only d q1 q2).filtered = filter_items_sync d.items q2 ∧
    (apply_latest_only d q1 q2).selected =
      (if (filter_items_sync d.items q2).isEmpty then none else some 0) := by
  unfold race_apply_stale_last apply_latest_only async_search
  simp only [ItemListDelegate.set_query_only, ItemListDelegate.request_filter,
    ItemListDelegate.apply_filter_results, run_request]
  simp

/-- C4: selection movement wraps at both ends of the filtered view: on a
view of size `N > 0`, "next" from index `N-1` selects 0, "previous" from
index 0 selects `N-1`, "next" applied `N` times from index 0 returns to
index 0, and both operations are no-ops on an empty view. -/
theorem selection_wraparound (d : ItemListDelegate) :
    (0 < d.filtered_count → d.selected = some (d.filtered_count - 1) →
      (select_next d).selected = some 0) ∧
    (0 < d.filtered_count → d.selected = some 0 →
      (select_prev d).selected = some (d.filtered_count - 1)) ∧
    (0 < d.filtered_count → d.selected = some 0 →
      (select_next^[d.filtered_count] d).selected = some 0) ∧
    (d.filtered_count = 0 → select_next d = d ∧ select_prev d = d) := by
  refine ⟨?_, ?_, ?_, ?_⟩
  · intro hpos hsel
    have hstep := (select_next_selected d (d.filtered_count - 1) hsel (by omega)).1
    rw [hstep]
    have heq : d.filtered_count - 1 + 1 = d.filtered_count := by omega
    rw [heq, Nat.mod_self]
  · intro hpos hsel
    unfold select_prev
    have h0 : ¬ d.filtered_count = 0 := by omega
    simp [ItemListDelegate.selected_index, hsel, h0, ItemListDelegate.set_selected]
  · intro hpos hsel
    have := (select_next_iterate d d.filtered_count 0 hsel hpos).1
    rw [this]
    simp [Nat.mod_self]
  · intro h0
    unfold select_next select_prev
    simp [h0]

/-- C5: the sort priority and section label of every item are fixed by
its variant — Calculator (0, "Calculator"), SearchShortcut (1, "Search"),
Window (2, "Windows"), Submenu and Action (3, "Commands"), Application
(4, "Applications") — and two items share a section label iff they share
a sort priority. -/
theorem priority_section_table :
    (∀ c : CalculatorItem, (ListItem.Calculator c).sort_priority = 0 ∧
      (ListItem.Calculator c).section_name = "Calculator") ∧
    (∀ s : SearchItem, (ListItem.Search s).sort_priority = 1 ∧
      (ListItem.Search s).section_name = "Search") ∧
    (∀ w : WindowItem, (ListItem.Window w).sort_priority = 2 ∧
      (ListItem.Window w).section_name = "Windows") ∧
    (∀ m : SubmenuItem, (ListItem.Submenu m).sort_priority = 3 ∧
      (ListItem.Submenu m).section_name = "Commands") ∧
    (∀ a : ActionItem, (ListItem.Action a).sort_priority = 3 ∧
      (ListItem.Action a).section_name = "Commands") ∧
    (∀ p : ApplicationItem, (ListItem.Application p).sort_priority = 4 ∧
      (ListItem.Application p).section_name = "Applications") ∧
    (∀ x y : ListItem, x.section_name = y.section_name ↔
      x.sort_priority = y.sort_priority) := by
  refine ⟨fun _ => ⟨rfl, rfl⟩, fun _ => ⟨rfl, rfl⟩, fun _ => ⟨rfl, rfl⟩,
    fun _ => ⟨rfl, rfl⟩, fun _ => ⟨rfl, rfl⟩, fun _ => ⟨rfl, rfl⟩, ?_⟩
  intro x y
  cases x <;> cases y <;>
    simp [ListItem.section_name, ListItem.sort_priority]

/-- C9: recording a query is a pure query update — the filtered view, its
sections, the cursor and the backing items are all unchanged; the view
changes only when filter results are applied. -/
theorem set_query_frame (d : ItemListDelegate) (q : String) :
    (d.set_query_only q).query = q ∧
    (d.set_query_only q).filtered = d.filtered ∧
    (d.set_query_only q).selected = d.selected ∧
    (d.set_query_only q).items = d.items ∧
    sectionLengths (d.set_query_only q).items (d.set_query_only q).filtered
      = sectionLengths d.items d.filtered := by
  simp [ItemListDelegate.set_query_only]

theorem str_isEmpty_false (s : String) (h : s ≠ "") : s.isEmpty = false := by
  cases hb : s.isEmpty
  · rfl
  · exfalso; apply h
    cases s with
    | mk data =>
      cases data with
      | nil => rfl
      | cons a l =>
        have hsz := Char.utf8Size_pos a
        simp [String.isEmpty, String.endPos, String.utf8ByteSize,
          String.Pos.ext_iff] at hb
        omega

theorem str_isEmpty_true (s : String) (h : s = "") : s.isEmpty = true := by
  rw [h]; rfl

/-- C3: on any filtered view, `global_to_section_row` followed by
`section_row_to_global` is the identity on every valid global index, and
conversely every valid (section, row) pair maps to a global index and
back to itself. -/
theorem section_row_roundtrip (d : ItemListDelegate) (i s r : Nat)
    (hi : i < d.filtered_count)
    (hs : s < (sectionLengths d.items d.filtered).length)
    (hr : r < (sectionLengths d.items d.filtered).getD s 0) :
    d.section_row_to_global (d.global_to_section_row i).1
      (d.global_to_section_row i).2 = i ∧
    d.global_to_section_row (d.section_row_to_global s r) = (s, r) := by
  unfold ItemListDelegate.section_row_to_global ItemListDelegate.global_to_section_row
  constructor
  · apply s2g_g2s
    rw [sectionLengths_sum]
    exact hi
  · exact g2s_s2g _ s r hs hr

/-- Witness for C3: the round trip at global index 2 and at section 1,
row 1 of the two-section view of `wDel`. -/
theorem section_row_roundtrip_witness :
    wDel.section_row_to_global (wDel.global_to_section_row 2).1
      (wDel.global_to_section_row 2).2 = 2 ∧
    wDel.global_to_section_row (wDel.section_row_to_global 1 1) = (1, 1) :=
  section_row_roundtrip wDel 2 1 1 (by decide) (by decide) (by decide)

/-- Witness for C4 on a three-row filtered view (`wDel`, cursor at 0;
`wDelLast`, cursor at the last row) and on the empty view. -/
theorem selection_wraparound_witness :
    (select_next wDelLast).selected = some 0 ∧
    (select_prev wDel).selected = some 2 ∧
    (select_next^[wDel.filtered_count] wDel).selected = some 0 ∧
    select_next wDelEmpty = wDelEmpty ∧ select_prev wDelEmpty = wDelEmpty := by
  refine ⟨?_, ?_, ?_, ?_, ?_⟩
  · exact (selection_wraparound wDelLast).1 (by decide) (by decide)
  · exact (selection_wraparound wDel).2.1 (by decide) (by decide)
  · exact (selection_wraparound wDel).2.2.1 (by decide) (by decide)
  · exact ((selection_wraparound wDelEmpty).2.2.2 (by decide)).1
  · exact ((selection_wraparound wDelEmpty).2.2.2 (by decide)).2

/-- C6: in Main mode, confirming a selected Submenu with id
`"submenu-emojis"` switches to EmojiPicker with an empty query and a
freshly constructed grid controller; id `"submenu-clipboard"` likewise
switches to ClipboardHistory. -/
theorem submenu_mode_transitions (fail : Effect → Bool) (v : LauncherView)
    (sub : SubmenuItem) (hm : v.view_mode = ViewMode.Main)
    (hsel : v.list_state.selected_item = some (ListItem.Submenu sub)) :
    (sub.id = "submenu-emojis" →
      ((v.confirm fail).1.view_mode = ViewMode.EmojiPicker ∧
       (v.confirm fail).1.input_state.value = "" ∧
       (v.confirm fail).1.emoji_list_state = some EmojiGridDelegate.new ∧
       EmojiGridDelegate.new.query = "")) ∧
    (sub.id = "submenu-clipboard" →
      ((v.confirm fail).1.view_mode = ViewMode.ClipboardHistory ∧
       (v.confirm fail).1.input_state.value = "" ∧
       (v.confirm fail).1.clipboard_list_state = some ClipboardListDelegate.new ∧
       ClipboardListDelegate.new.query = "")) := by
  constructor
  · intro hid
    simp [LauncherView.confirm, hm, hsel, hid,
      LauncherView.enter_emoji_mode, EmojiGridDelegate.new]
  · intro hid
    have hne : ¬ sub.id = "submenu-emojis" := by rw [hid]; decide
    simp [LauncherView.confirm, hm, hsel, hid, hne,
      LauncherView.enter_clipboard_mode, ClipboardListDelegate.new]

/-- Witness for C6: the emoji submenu selected in `wView 0` and the
clipboard submenu selected in `wView 1`. -/
theorem submenu_mode_transitions_witness :
    (((wView 0).confirm (fun _ => false)).1.view_mode = ViewMode.EmojiPicker ∧
     ((wView 0).confirm (fun _ => false)).1.input_state.value = "" ∧
     ((wView 0).confirm (fun _ => false)).1.emoji_list_state
        = some EmojiGridDelegate.new ∧
     EmojiGridDelegate.new.query = "") ∧
    (((wView 1).confirm (fun _ => false)).1.view_mode = ViewMode.ClipboardHistory ∧
     ((wView 1).confirm (fun _ => false)).1.input_state.value = "" ∧
     ((wView 1).confirm (fun _ => false)).1.clipboard_list_state
        = some ClipboardListDelegate.new ∧
     ClipboardListDelegate.new.query = "") :=
  ⟨(submenu_mode_transitions (fun _ => false) (wView 0)
      { id := "submenu-emojis", name := "Emojis" } rfl (by decide)).1 rfl,
   (submenu_mode_transitions (fun _ => false) (wView 1)
      { id := "submenu-clipboard", name := "Clipboard" } rfl (by decide)).2 rfl⟩

/-- C7: in EmojiPicker or ClipboardHistory mode, cancel — or back with an
empty query — returns to Main, destroys the sub-mode's controller state
and clears the query (input text and the Main list's query); back with a
non-empty query changes nothing (in particular no mode transition). -/
theorem sub_mode_back_and_cancel (v : LauncherView) :
    (v.view_mode = ViewMode.EmojiPicker →
      (v.cancel.1.view_mode = ViewMode.Main ∧
       v.cancel.1.emoji_list_state = none ∧
       v.cancel.1.input_state.value = "" ∧
       v.cancel.1.list_state.query = "" ∧
       (v.input_state.value = "" →
         v.go_back.view_mode = ViewMode.Main ∧
         v.go_back.emoji_list_state = none ∧
         v.go_back.input_state.value = "") ∧
       (v.input_state.value ≠ "" → v.go_back = v))) ∧
    (v.view_mode = ViewMode.ClipboardHistory →
      (v.cancel.1.view_mode = ViewMode.Main ∧
       v.cancel.1.clipboard_list_state = none ∧
       v.cancel.1.input_state.value = "" ∧
       v.cancel.1.list_state.query = "" ∧
       (v.input_state.value = "" →
         v.go_back.view_mode = ViewMode.Main ∧
         v.go_back.clipboard_list_state = none ∧
         v.go_back.input_state.value = "") ∧
       (v.input_state.value ≠ "" → v.go_back = v))) := by
  constructor
  · intro hm
    refine ⟨?_, ?_, ?_, ?_, ?_, ?_⟩ <;>
      simp [LauncherView.cancel, LauncherView.go_back, hm,
        LauncherView.exit_emoji_mode, ItemListDelegate.clear_query]
    · intro hq
      simp [str_isEmpty_true _ hq, LauncherView.exit_emoji_mode,
        ItemListDelegate.clear_query]
    · intro hq
      simp [str_isEmpty_false _ hq]
  · intro hm
    refine ⟨?_, ?_, ?_, ?_, ?_, ?_⟩ <;>
      simp [LauncherView.cancel, LauncherView.go_back, hm,
        LauncherView.exit_clipboard_mode, ItemListDelegate.clear_query]
    · intro hq
      simp [str_isEmpty_true _ hq, LauncherView.exit_clipboard_mode,
        ItemListDelegate.clear_query]
    · intro hq
      simp [str_isEmpty_false _ hq]

/-- Witness for C7: cancel and back from both sub-modes, with empty and
non-empty input. -/
theorem sub_mode_back_and_cancel_witness :
    ((wViewEmoji "").cancel.1.view_mode = ViewMode.Main ∧
     (wViewEmoji "").cancel.1.emoji_list_state = none ∧
     (wViewEmoji "").cancel.1.input_state.value = "" ∧
     (wViewEmoji "").cancel.1.list_state.query = "" ∧
     ((wViewEmoji "").input_state.value = "" →
       (wViewEmoji "").go_back.view_mode = ViewMode.Main ∧
       (wViewEmoji "").go_back.emoji_list_state = none ∧
       (wViewEmoji "").go_back.input_state.value = "") ∧
     ((wViewEmoji "").input_state.value ≠ "" →
       (wViewEmoji "").go_back = wViewEmoji "")) ∧
    ((wViewClip "ab").cancel.1.view_mode = ViewMode.Main ∧
     (wViewClip "ab").cancel.1.clipboard_list_state = none ∧
     (wViewClip "ab").cancel.1.input_state.value = "" ∧
     (wViewClip "ab").cancel.1.list_state.query = "" ∧
     ((wViewClip "ab").input_state.value = "" →
       (wViewClip "ab").go_back.view_mode = ViewMode.Main ∧
       (wViewClip "ab").go_back.clipboard_list_state = none ∧
       (wViewClip "ab").go_back.input_state.value = "") ∧
     ((wViewClip "ab").input_state.value ≠ "" →
       (wViewClip "ab").go_back = wViewClip "ab")) :=
  ⟨(sub_mode_back_and_cancel (wViewEmoji "")).1 rfl,
   (sub_mode_back_and_cancel (wViewClip "ab")).2 rfl⟩

/-- C8 (counterexample): confirming an Application whose launch fails
emits no warning event — the launch result is discarded — so "a dispatch
failure is reported as a warning" does not hold for every non-submenu
item.  The hide signal is still sent. -/
theorem application_launch_failure_not_warned :
    (ListItem.Application { id := "app-firefox", name := "Firefox" }).is_submenu
        = false ∧
    Event.hid ∈ on_confirm (fun _ => true)
      (ListItem.Application { id := "app-firefox", name := "Firefox" }) ∧
    Event.warned ∉ on_confirm (fun _ => true)
      (ListItem.Application { id := "app-firefox", name := "Firefox" }) := by
  decide

/-- C8 (amended): confirming any non-submenu item dispatches exactly that
item's variant-specific external side effect and always ends with the
hide signal, even when the effect fails; a failure is reported as a
warning for Window, Calculator, Action and SearchShortcut items, while an
Application launch failure is silently discarded. -/
theorem non_submenu_confirm_shape (fail : Effect → Bool) (it : ListItem)
    (h : it.is_submenu = false) :
    ∃ e, confirm_effect it = some e ∧
      on_confirm fail it =
        Event.dispatched e ::
          (if fail e && warns_on_fail it then [Event.warned, Event.hid]
           else [Event.hid]) := by
  cases it with
  | Submenu sub => simp [ListItem.is_submenu] at h
  | Application app =>
    exact ⟨_, rfl, by simp [on_confirm, warns_on_fail]⟩
  | Window win =>
    refine ⟨_, rfl, ?_⟩
    by_cases hf : fail (Effect.focusWindow win.address) <;>
      simp [on_confirm, warns_on_fail, hf]
  | Calculator c =>
    refine ⟨_, rfl, ?_⟩
    by_cases hf : fail (Effect.copyClipboard c.text_for_clipboard) <;>
      simp [on_confirm, warns_on_fail, hf]
  | Action act =>
    refine ⟨_, rfl, ?_⟩
    by_cases hf : fail (Effect.executeAction act.id) <;>
      simp [on_confirm, warns_on_fail, hf]
  | Search search =>
    refine ⟨_, rfl, ?_⟩
    by_cases hf : fail (Effect.openUrl search.url) <;>
      simp [on_confirm, warns_on_fail, hf]

/-- Witness for the amended C8: a Window item whose focus call fails
(warned, then hidden). -/
theorem non_submenu_confirm_shape_witness :
    ∃ e, confirm_effect
        (ListItem.Window { id := "win-term", title := "Terminal", address := "0x2A" })
        = some e ∧
      on_confirm (fun _ => true)
        (ListItem.Window { id := "win-term", title := "Terminal", address := "0x2A" }) =
        Event.dispatched e ::
          (if (fun _ => true : Effect → Bool) e &&
              warns_on_fail (ListItem.Window
                { id := "win-term", title := "Terminal", address := "0x2A" }) then
            [Event.warned, Event.hid]
           else [Event.hid]) :=
  non_submenu_confirm_shape (fun _ => true)
    (ListItem.Window { id := "win-term", title := "Terminal", address := "0x2A" })
    (by decide)

/-- C10: in Main mode, confirming a selected Submenu whose id is neither
`"submenu-emojis"` nor `"submenu-clipboard"` leaves the launcher state
unchanged (no mode transition), dispatches no external side effect, and
emits only the hide signal. -/
theorem unknown_submenu_closes_only (fail : Effect → Bool) (v : LauncherView)
    (sub : SubmenuItem) (hm : v.view_mode = ViewMode.Main)
    (hsel : v.list_state.selected_item = some (ListItem.Submenu sub))
    (h1 : sub.id ≠ "submenu-emojis") (h2 : sub.id ≠ "submenu-clipboard") :
    (v.confirm fail).1 = v ∧ (v.confirm fail).2 = [Event.hid] := by
  constructor <;>
    simp [LauncherView.confirm, hm, hsel, h1, h2,
      ItemListDelegate.do_confirm, on_confirm]

/-- Witness for C10: the unrecognised submenu `"submenu-settings"`
selected in `wView 2`. -/
theorem unknown_submenu_closes_only_witness :
    ((wView 2).confirm (fun _ => false)).1 = wView 2 ∧
    ((wView 2).confirm (fun _ => false)).2 = [Event.hid] :=
  unknown_submenu_closes_only (fun _ => false) (wView 2)
    { id := "submenu-settings", name := "Settings" } rfl (by decide)
    (by decide) (by decide)

theorem scored_empty (items : List ListItem) :
    ((List.range items.length).filterMap fun i =>
      (items.get? i).bind fun it => (fuzzy_score "" it.name).map fun s => (i, s))
      = (List.range items.length).map fun i => (i, 0) := by
  apply filterMap_eq_map_of
  intro i hi
  rw [List.mem_range] at hi
  rw [List.get?_eq_get hi]
  rfl

/-- C2: with the empty query, the filtered view contains every backing
index exactly once (it is a permutation of `range`), it is ordered by
ascending sort priority and then ascending original index, and the
section runs partition it exactly — their concatenation is the view and
no run is empty. -/
theorem empty_query_view (items : List ListItem) (hne : items ≠ []) :
    (filter_items_sync items "").Perm (List.range items.length) ∧
    List.Pairwise (fun i j =>
        prioAt items i < prioAt items j ∨
          (prioAt items i = prioAt items j ∧ i < j))
      (filter_items_sync items "") ∧
    (sections items (filter_items_sync items "")).flatten
        = filter_items_sync items "" ∧
    ∀ run ∈ sections items (filter_items_sync items ""), run ≠ [] := by
  have hfv : filter_items_sync items "" =
      (List.insertionSort (rankRel items)
        ((List.range items.length).map fun i => (i, 0))).map Prod.fst := by
    rw [filter_items_sync, scored_empty]
  have hperm : (List.insertionSort (rankRel items)
      ((List.range items.length).map fun i => (i, 0))).Perm
      ((List.range items.length).map fun i => (i, 0)) :=
    List.perm_insertionSort _ _
  have hpermfst : ((List.insertionSort (rankRel items)
      ((List.range items.length).map fun i => (i, 0))).map Prod.fst).Perm
      (List.range items.length) := by
    have hm := hperm.map Prod.fst
    rw [List.map_map] at hm
    simpa only [Function.comp_def, List.map_id'] using hm
  have hsorted : List.Sorted (rankRel items)
      (List.insertionSort (rankRel items)
        ((List.range items.length).map fun i => (i, 0))) :=
    List.sorted_insertionSort _ _
  have hmem : ∀ x ∈ List.insertionSort (rankRel items)
      ((List.range items.length).map fun i => (i, 0)), x.2 = 0 := by
    intro x hx
    have hx2 := hperm.mem_iff.1 hx
    obtain ⟨i, _, rfl⟩ := List.mem_map.1 hx2
    rfl
  have hnodup : ((List.insertionSort (rankRel items)
      ((List.range items.length).map fun i => (i, 0))).map Prod.fst).Nodup :=
    hpermfst.symm.nodup (List.nodup_range _)
  have hlax : List.Pairwise (fun i j =>
      prioAt items i < prioAt items j ∨
        (prioAt items i = prioAt items j ∧ i ≤ j))
      ((List.insertionSort (rankRel items)
        ((List.range items.length).map fun i => (i, 0))).map Prod.fst) := by
    rw [List.pairwise_map]
    apply pairwise_mono_mem ?_ hsorted
    intro a ha b hb hr
    have ha2 := hmem a ha
    have hb2 := hmem b hb
    unfold rankRel at hr
    rw [ha2, hb2] at hr
    omega
  have hstrict := pairwise_and_both hlax hnodup
  refine ⟨?_, ?_, ?_, ?_⟩
  · rw [hfv]; exact hpermfst
  · rw [hfv]
    apply pairwise_mono_mem ?_ hstrict
    intro a _ b _ hab
    obtain ⟨hl, hne2⟩ := hab
    rcases hl with h1 | ⟨h1, h2⟩
    · exact Or.inl h1
    · exact Or.inr ⟨h1, by omega⟩
  · exact sections_join items _
  · exact groupRuns_ne_nil (sectionAt items) _

/-- Witness for C2 at the three-item collection `wItems` (view
`[2, 0, 1]`). -/
theorem empty_query_view_witness :
    wItems ≠ [] ∧
    (filter_items_sync wItems "").Perm (List.range wItems.length) :=
  ⟨by decide, (empty_query_view wItems (by decide)).1⟩
